import Mathlib

/-!
Verification development for the batch reconstruction orchestrator
`convert_with_batch_processing.py`.

The script drives external commands (colmap, magick) and the filesystem.
We embed it shallowly: each external command is modelled by the sequence of
results its successive attempts would produce; the filesystem facts the
script branches on (whether a sparse folder exists after mapping, whether a
batch database exists at merge time, what the input directory lists) are
inputs of the model; log output is a list of structured entries, one per
`log_and_print` call on the modelled control paths.
-/

/-- Result of one attempt to run an external command
(`subprocess.run(command, shell=True, timeout=timeout)`, line 39):
either the process exited with a return code, or the timeout expired
(`subprocess.TimeoutExpired`). -/
inductive AttemptResult where
  | exit (code : Nat)
  | timeout
deriving DecidableEq, Repr

/-- Behaviour of one external command: the result of its n-th attempt
(0-based). -/
def CmdBehavior : Type := Nat → AttemptResult

/-- Python exceptions that the script can let escape uncaught. -/
inductive PyExc where
  | fileNotFound
  | nameError (name : String)
  | indexError
deriving DecidableEq, Repr

/-- Outcome of a modelled fragment of the script: a normal value, an explicit
`exit(status)` (a SystemExit reaching the interpreter, which then terminates
the process with that status), or an uncaught exception (a top-level crash
with a traceback). -/
inductive PyOutcome (α : Type) where
  | ok (a : α)
  | sysExit (status : Nat)
  | raised (e : PyExc)
deriving DecidableEq, Repr

/-- Outcome of `run_colmap_command` itself: it either returns `None` or calls
`exit(1)`.  Note `exit` raises `SystemExit`, which is *not* a subclass of
`Exception` in Python 3, so an `except Exception` handler in a caller does
not catch it: the process terminates. -/
inductive RunOutcome where
  | ok
  | sysExit (status : Nat)
deriving DecidableEq, Repr

/-- One `log_and_print` call, as a structured entry.  Each constructor
corresponds to one literal message in the source (the f-string arguments are
the constructor arguments):
* `attemptFailed k c`    — line 42, "Attempt k: Command failed with code c"
* `attemptTimedOut k`    — line 44, "Attempt k: Command timed out"
* `allAttemptsFailed`    — line 46, "ERROR: All attempts failed. Exiting."
* `processingBatch k n`  — line 77, "Processing batch k/n..."
* `addedSparse i`        — line 98, "Added sparse folder ... to merge list."
* `sparseNotFound i`     — line 101, "WARNING: Sparse folder not found ..."
* `batchFailed i`        — line 103, "Batch i failed with error ... Skipping."
* `noValidSparse`        — line 109, "ERROR: No valid sparse folders found for merging."
* `mergingStart`         — line 115, "Merging batch databases into one central database..."
* `initializedCentral`   — line 123, "Initialized central database with ..."
* `skippingMissingDb i`  — line 128, "Skipping missing database: ..." (batch i)
* `mergedInto`           — line 135, "Merged databases into ..."
* `cleaningUp`           — line 137, "Cleaning up temporary batch folders..."
* `deletedBatchFolder i` — line 141, "Deleted batch folder: ..."
* `failedDelete i`       — line 143, "Failed to delete ..."
* `imagesFound`          — line 151, "Images found in ..."
* `undistHeader`         — lines 156-158, the image-undistortion banner
* `processingImage f`    — line 174, "Processing image: f"
* `resizeFailed f c`     — line 180, "ERROR: Resize failed for f ... with code c. Exiting."
* `done`                 — line 183, "Done."
-/
inductive LogEntry where
  | attemptFailed (attempt code : Nat)
  | attemptTimedOut (attempt : Nat)
  | allAttemptsFailed
  | processingBatch (k total : Nat)
  | addedSparse (batch : Nat)
  | sparseNotFound (batch : Nat)
  | batchFailed (batch : Nat)
  | noValidSparse
  | mergingStart
  | initializedCentral
  | skippingMissingDb (batch : Nat)
  | mergedInto
  | cleaningUp
  | deletedBatchFolder (batch : Nat)
  | failedDelete (batch : Nat)
  | imagesFound
  | undistHeader
  | processingImage (file : String)
  | resizeFailed (file : String) (code : Nat)
  | done
deriving DecidableEq, Repr

/-- The `while attempt <= retries` loop of `run_colmap_command`
(lines 36-45), recursing on the number of loop iterations still allowed;
`attempt` is the current 0-based attempt counter.  When the loop exhausts its
iterations the function logs line 46 and calls `exit(1)` (line 47).  Returns
the outcome, the log entries written, and the number of attempts made. -/
def runAttempts (beh : CmdBehavior) (attempt : Nat) :
    Nat → RunOutcome × List LogEntry × Nat
  | 0 => (.sysExit 1, [.allAttemptsFailed], 0)
  | remaining + 1 =>
    match beh attempt with
    | .exit 0 => (.ok, [], 1)
    | .exit (c + 1) =>
      let r := runAttempts beh (attempt + 1) remaining
      (r.1, .attemptFailed (attempt + 1) (c + 1) :: r.2.1, r.2.2 + 1)
    | .timeout =>
      let r := runAttempts beh (attempt + 1) remaining
      (r.1, .attemptTimedOut (attempt + 1) :: r.2.1, r.2.2 + 1)

/-- Embeds `run_colmap_command(command, timeout=1800, retries=1)`
(lines 35-47).  The command string and timeout only determine the external
behaviour, which the model abstracts as `beh`; the loop runs while
`attempt <= retries`, i.e. at most `retries + 1` iterations. -/
def run_colmap_command (beh : CmdBehavior) (retries : Nat) :
    RunOutcome × List LogEntry × Nat :=
  runAttempts beh 0 (retries + 1)

/-- The log entry lines 42/44 write for a failing attempt with 1-based
index `k`. -/
def failLog (k : Nat) : AttemptResult → LogEntry
  | .exit c => .attemptFailed k c
  | .timeout => .attemptTimedOut k

/-- Everything one batch's iteration of `batch_process_images` observes of
the outside world: the behaviours of its three external commands
(feature extraction, sequential matching, mapping) and whether the
`sparse/0` folder exists after the mapper ran. -/
structure BatchEnv where
  featBeh : CmdBehavior
  matchBeh : CmdBehavior
  mapBeh : CmdBehavior
  sparseExists : Bool

/-- Embeds the body of the `for batch_num, batch_folder in enumerate(...)`
loop of `batch_process_images` (lines 75-106) for batch index `k` of
`total` batches.  Returns `ok b` where `b` says whether the batch's sparse
folder was appended to `all_sparse_folders`.

A `run_colmap_command` failure raises `SystemExit` via `exit(1)`;
`SystemExit` is not an `Exception` in Python 3, so the
`except Exception` handler of lines 102-104 does not catch it and the
whole process terminates (`sysExit`).  Within the modelled effects the
try-body raises nothing else, so the handler's skip-and-continue branch
(log `batchFailed`, `continue`) is unreachable here. -/
def process_batch (total k : Nat) (env : BatchEnv) : PyOutcome Bool × List LogEntry :=
  let l0 : List LogEntry := [.processingBatch (k + 1) total]
  match run_colmap_command env.featBeh 1 with
  | (.sysExit s, l, _) => (.sysExit s, l0 ++ l)
  | (.ok, l1, _) =>
    match run_colmap_command env.matchBeh 1 with
    | (.sysExit s, l, _) => (.sysExit s, l0 ++ l1 ++ l)
    | (.ok, l2, _) =>
      match run_colmap_command env.mapBeh 1 with
      | (.sysExit s, l, _) => (.sysExit s, l0 ++ l1 ++ l2 ++ l)
      | (.ok, l3, _) =>
        if env.sparseExists then
          (.ok true, l0 ++ l1 ++ l2 ++ l3 ++ [.addedSparse k])
        else
          (.ok false, l0 ++ l1 ++ l2 ++ l3 ++ [.sparseNotFound k])

/-- The loop of `batch_process_images` over the batches, carrying the
0-based index `k` of the next batch; returns the indices of the batches
appended to `all_sparse_folders` (each identifies its
`batch_k/sparse/0` folder). -/
def batch_loop (total k : Nat) : List BatchEnv → PyOutcome (List Nat) × List LogEntry
  | [] => (.ok [], [])
  | env :: rest =>
    match process_batch total k env with
    | (.ok added, l) =>
      let r := batch_loop total (k + 1) rest
      match r.1 with
      | .ok ks => (.ok (if added then k :: ks else ks), l ++ r.2)
      | .sysExit s => (.sysExit s, l ++ r.2)
      | .raised e => (.raised e, l ++ r.2)
    | (.sysExit s, l) => (.sysExit s, l)
    | (.raised e, l) => (.raised e, l)

/-- Embeds `batch_process_images(batch_folders, source_path)`
(lines 71-112): run the per-batch loop, then, if `all_sparse_folders` is
empty, log line 109 and `exit(1)` (lines 108-110); otherwise return the
collected sparse folders. -/
def batch_process_images (envs : List BatchEnv) : PyOutcome (List Nat) × List LogEntry :=
  match batch_loop envs.length 0 envs with
  | (.ok ks, l) =>
    if ks.isEmpty then (.sysExit 1, l ++ [.noValidSparse]) else (.ok ks, l)
  | (.sysExit s, l) => (.sysExit s, l)
  | (.raised e, l) => (.raised e, l)

/-- Embeds `create_batch_folders(images, batch_size, source_path, input_folder)`
(lines 49-69), as the list of per-batch image lists (the `batch_images`
slice of each `batch_num`).  Directory creation and file copying are
filesystem effects outside the model (a copy failure would propagate as an
uncaught exception; nothing in the claims depends on it).
`math.ceil(total_images / batch_size)` is the exact ceiling
`(total + batch_size - 1) / batch_size` for every positive `batch_size`
(Python computes it through float division, exact for all realistic sizes;
`batch_size = 0` would raise `ZeroDivisionError` in Python and is excluded
by hypothesis in every theorem below). -/
def create_batch_folders (images : List String) (batch_size : Nat) :
    List (List String) :=
  let total_images := images.length
  let num_batches := (total_images + batch_size - 1) / batch_size
  (List.range num_batches).map (fun batch_num =>
    let start_idx := batch_num * batch_size
    let end_idx := min ((batch_num + 1) * batch_size) total_images
    (images.drop start_idx).take (end_idx - start_idx))

/-- The `for batch_folder in batch_folders[1:]` fold of `merge_databases`
(lines 125-133), over the per-batch databases (`none` = the batch's
`database.db` does not exist at merge time).  `acc` is the content of the
central database; `i` is the batch index (for the skip log only).
`mergeCmdBeh acc d` is the behaviour of the external `database_merger`
command merging `acc` with `d`; on success the central database is replaced
by `mergedResult acc d` (the move of line 133).  `run_colmap_command`
failure terminates the process (line 47). -/
def merge_fold {DB : Type} (mergedResult : DB → DB → DB)
    (mergeCmdBeh : DB → DB → CmdBehavior) (acc : DB) (i : Nat) :
    List (Option DB) → PyOutcome DB × List LogEntry
  | [] => (.ok acc, [])
  | none :: rest =>
    let r := merge_fold mergedResult mergeCmdBeh acc (i + 1) rest
    (r.1, .skippingMissingDb i :: r.2)
  | some d :: rest =>
    match run_colmap_command (mergeCmdBeh acc d) 1 with
    | (.ok, l1, _) =>
      let r := merge_fold mergedResult mergeCmdBeh (mergedResult acc d) (i + 1) rest
      (r.1, l1 ++ r.2)
    | (.sysExit s, l1, _) => (.sysExit s, l1)

/-- The cleanup pass of `merge_databases` (lines 137-143): every batch
folder is deleted; `rmOk i` says whether `shutil.rmtree` succeeds for batch
`i`; a failure is logged and the pass continues. -/
def cleanupLogs (rmOk : Nat → Bool) (n : Nat) : List LogEntry :=
  .cleaningUp ::
    (List.range n).map (fun i =>
      if rmOk i then .deletedBatchFolder i else .failedDelete i)

/-- Embeds `merge_databases(batch_folders, source_path)` (lines 114-145).
`dbs` holds, per batch folder, the content of its `database.db` (or `none`
if the file does not exist).  Control flow of the source:
* line 115 logs `mergingStart`;
* line 119 `batch_folders[0]` raises `IndexError` on an empty list;
* lines 120-121: if the first batch's database is missing, raise
  `FileNotFoundError` — an uncaught exception (no `log_and_print` of the
  failure, no handler in any caller);
* lines 122-123 copy it to the central database and log;
* lines 125-133 fold the remaining databases (`merge_fold`);
* lines 135-143 log completion and clean up the batch folders. -/
def merge_databases {DB : Type} (mergedResult : DB → DB → DB)
    (mergeCmdBeh : DB → DB → CmdBehavior) (rmOk : Nat → Bool)
    (dbs : List (Option DB)) : PyOutcome DB × List LogEntry :=
  match dbs with
  | [] => (.raised .indexError, [.mergingStart])
  | none :: _ => (.raised .fileNotFound, [.mergingStart])
  | some d0 :: rest =>
    match merge_fold mergedResult mergeCmdBeh d0 1 rest with
    | (.ok acc, l) =>
      (.ok acc,
        .mergingStart :: .initializedCentral :: l
          ++ [.mergedInto] ++ cleanupLogs rmOk dbs.length)
    | (.sysExit s, l) =>
      (.sysExit s, .mergingStart :: .initializedCentral :: l)
    | (.raised e, l) =>
      (.raised e, .mergingStart :: .initializedCentral :: l)

/-- Python `str.lower()` (ASCII case folding, which is all the script's
extension test needs). -/
def pyLower (s : String) : String := String.mk (s.data.map Char.toLower)

/-- Python `str.endswith(suffix)`. -/
def pyEndsWith (s suffix : String) : Bool := List.isSuffixOf suffix.data s.data

/-- The image-file test `img.lower().endswith((".jpg", ".png"))`, the
identical expression used at line 150 (building the image list) and at
line 173 (the resize loop). -/
def isJpgOrPng (f : String) : Bool :=
  pyEndsWith (pyLower f) ".jpg" || pyEndsWith (pyLower f) ".png"

/-- The ImageSet of line 150: the directory listing filtered down to names
whose lowercase form ends in ".jpg" or ".png". -/
def imageListing (listing : List String) : List String :=
  listing.filter isJpgOrPng

/-- The inner `for file in os.listdir(input_folder_path)` loop of the
resize pass (lines 172-181) for one scale: each matching file is logged and
copied, then `magick mogrify` runs on the copy (`mog file` is its exit
code); a non-zero code is logged and the process exits with that very code
(line 181, `exit(result.returncode)`).  Non-matching files are skipped
silently. -/
def resize_scale (mog : String → Nat) : List String → PyOutcome Unit × List LogEntry
  | [] => (.ok (), [])
  | file :: rest =>
    if isJpgOrPng file then
      let code := mog file
      if code = 0 then
        let r := resize_scale mog rest
        (r.1, .processingImage file :: r.2)
      else (.sysExit code, [.processingImage file, .resizeFailed file code])
    else resize_scale mog rest

/-- The three scales of line 170, `zip(["images_2", ...], ["50%", ...])`. -/
def scales : List (String × String) :=
  [("images_2", "50%"), ("images_4", "25%"), ("images_8", "12.5%")]

/-- The outer `for scale, factor in zip(...)` loop of the resize pass
(lines 170-181); `mog factor file` is the mogrify exit code for `file` at
that factor.  Each scale iterates over the same directory listing. -/
def resize_pass (mog : String → String → Nat) (files : List String) :
    List (String × String) → PyOutcome Unit × List LogEntry
  | [] => (.ok (), [])
  | (_, factor) :: restScales =>
    match resize_scale (mog factor) files with
    | (.ok _, l) =>
      let r := resize_pass mog files restScales
      (r.1, l ++ r.2)
    | (.sysExit s, l) => (.sysExit s, l)
    | (.raised e, l) => (.raised e, l)

/-- The command-line configuration the claims depend on (lines 12-22). -/
structure RunConfig where
  skip_matching : Bool
  resize : Bool
  source_path : String
  input_folder : String
  batch_size : Nat

/-- Everything the whole script observes of the outside world.  `DB` is the
(opaque) type of database contents. -/
structure World (DB : Type) where
  /-- `os.listdir(input_folder_path)` -/
  listing : List String
  /-- command behaviours and sparse-folder existence for batch `i` -/
  cmdEnv : Nat → BatchEnv
  /-- content of `batch_i/database.db` at merge time (`none` = missing) -/
  dbAfter : Nat → Option DB
  /-- result produced by a successful `database_merger` run -/
  mergedResult : DB → DB → DB
  /-- behaviour of the `database_merger` command on the two databases -/
  mergeCmdBeh : DB → DB → CmdBehavior
  /-- whether `shutil.rmtree` succeeds for batch folder `i` -/
  rmOk : Nat → Bool
  /-- behaviour of the `image_undistorter` command -/
  undistBeh : CmdBehavior
  /-- mogrify exit code, per resize factor and file -/
  mogrify : String → String → Nat

/-- Embeds the top-level flow of the script (lines 147-183).

The local `input_folder_path` is assigned only inside the
`if not args.skip_matching` branch (line 149); we model the Python binding
as an `Option`: reading it while unbound (the f-string of line 159)
raises `NameError`, an uncaught exception.

With matching enabled, the branch lists the input folder, filters it
(line 150), partitions it (`create_batch_folders`), reconstructs per batch
(`batch_process_images`, whose envs come from the world, one per batch
folder), and merges (`merge_databases` over all batch folders' databases,
successful or not).  Then the undistortion command runs (lines 156-160);
the sparse-folder relayout of lines 162-166 has no failure modes in the
model and is omitted; finally the resize pass runs if requested
(lines 168-181) and the script ends ("Done.", exit status 0 = `ok`). -/
def mainScript {DB : Type} (cfg : RunConfig) (w : World DB) :
    PyOutcome Unit × List LogEntry :=
  let input_folder_path : Option String :=
    if cfg.skip_matching then none
    else some (cfg.source_path ++ "/" ++ cfg.input_folder)
  let phase1 : PyOutcome Unit × List LogEntry :=
    if cfg.skip_matching then (.ok (), [])
    else
      let images := imageListing w.listing
      let batch_folders := create_batch_folders images cfg.batch_size
      let envs := (List.range batch_folders.length).map w.cmdEnv
      match batch_process_images envs with
      | (.ok _, l1) =>
        let dbs := (List.range batch_folders.length).map w.dbAfter
        match merge_databases w.mergedResult w.mergeCmdBeh w.rmOk dbs with
        | (.ok _, l2) => (.ok (), .imagesFound :: l1 ++ l2)
        | (.sysExit s, l2) => (.sysExit s, .imagesFound :: l1 ++ l2)
        | (.raised e, l2) => (.raised e, .imagesFound :: l1 ++ l2)
      | (.sysExit s, l1) => (.sysExit s, .imagesFound :: l1)
      | (.raised e, l1) => (.raised e, .imagesFound :: l1)
  match phase1 with
  | (.ok _, l1) =>
    match input_folder_path with
    | none => (.raised (.nameError "input_folder_path"), l1 ++ [.undistHeader])
    | some _ =>
      match run_colmap_command w.undistBeh 1 with
      | (.ok, l2, _) =>
        if cfg.resize then
          match resize_pass w.mogrify w.listing scales with
          | (.ok _, l3) => (.ok (), l1 ++ [.undistHeader] ++ l2 ++ l3 ++ [.done])
          | (.sysExit s, l3) => (.sysExit s, l1 ++ [.undistHeader] ++ l2 ++ l3)
          | (.raised e, l3) => (.raised e, l1 ++ [.undistHeader] ++ l2 ++ l3)
        else (.ok (), l1 ++ [.undistHeader] ++ l2 ++ [.done])
      | (.sysExit s, l2, _) => (.sysExit s, l1 ++ [.undistHeader] ++ l2)
  | (.sysExit s, l) => (.sysExit s, l)
  | (.raised e, l) => (.raised e, l)

/-- A batch environment in which every command succeeds on its first
attempt and the sparse reconstruction is produced. -/
def benignEnv : BatchEnv :=
  ⟨fun _ => .exit 0, fun _ => .exit 0, fun _ => .exit 0, true⟩

/-- A world in which every external command succeeds, every batch database
exists (batch `i` holds the content `i`), every deletion succeeds, and
every mogrify invocation returns 0.  Used to instantiate theorems at
concrete full-success runs. -/
def benignWorld : World Nat where
  listing := ["a.jpg", "b.png", "c.txt"]
  cmdEnv := fun _ => benignEnv
  dbAfter := fun i => some i
  mergedResult := fun a b => 10 * a + b
  mergeCmdBeh := fun _ _ _ => .exit 0
  rmOk := fun _ => true
  undistBeh := fun _ => .exit 0
  mogrify := fun _ _ => 0

/-- A configuration with matching enabled, resize enabled, batch size 2. -/
def benignCfg : RunConfig := ⟨false, true, "s", "input", 2⟩

/-! ## Theorems -/

theorem runAttempts_all_fail (beh : CmdBehavior) (h : ∀ i, beh i ≠ .exit 0) :
    ∀ remaining start, runAttempts beh start remaining
      = (.sysExit 1,
         (List.range remaining).map (fun j => failLog (start + j + 1) (beh (start + j)))
           ++ [.allAttemptsFailed],
         remaining) := by
  intro remaining
  induction remaining with
  | zero => intro start; simp [runAttempts]
  | succ n ih =>
    intro start
    have hbeh := h start
    have key : (List.range (n + 1)).map (fun j => failLog (start + j + 1) (beh (start + j)))
        = failLog (start + 1) (beh start)
          :: (List.range n).map (fun j => failLog (start + 1 + j + 1) (beh (start + 1 + j))) := by
      rw [List.range_succ_eq_map, List.map_cons, List.map_map]
      refine congrArg₂ List.cons (by simp) ?_
      apply List.map_congr_left
      intro j _
      simp only [Function.comp_apply]
      congr 2 <;> omega
    rcases hb : beh start with c | _
    · cases c with
      | zero => exact absurd hb hbeh
      | succ c =>
        rw [key, hb]
        simp [runAttempts, hb, ih (start + 1), failLog]
    · rw [key, hb]
      simp [runAttempts, hb, ih (start + 1), failLog]

/-- C2: a command that fails (non-zero exit or timeout) on every attempt is
attempted exactly `retries + 1` times, every failed attempt is logged (with
a timeout and a non-zero exit each consuming exactly one attempt), and
`run_colmap_command` then terminates the process via `exit(1)`, a non-zero
status. -/
theorem run_colmap_command_retries_exhausted (beh : CmdBehavior) (retries : Nat)
    (h : ∀ i, beh i ≠ .exit 0) :
    run_colmap_command beh retries
      = (.sysExit 1,
         (List.range (retries + 1)).map (fun j => failLog (j + 1) (beh j))
           ++ [.allAttemptsFailed],
         retries + 1) := by
  have hh := runAttempts_all_fail beh h (retries + 1) 0
  simpa [run_colmap_command] using hh

/-- Witness for C2: a command timing out on every attempt, with the default
`retries = 1`, makes exactly 2 attempts, both logged, then exits with
status 1. -/
theorem run_colmap_command_retries_exhausted_witness :
    run_colmap_command (fun _ => .timeout) 1
      = (.sysExit 1, [.attemptTimedOut 1, .attemptTimedOut 2, .allAttemptsFailed], 2) := by
  have hh := run_colmap_command_retries_exhausted (fun _ => .timeout) 1 (fun i hi => nomatch hi)
  simpa using hh

/-- C3 counterexample: a command that exits with code 2 on every attempt.
After retries are exhausted the orchestrator exits with status 1 (line 47 is
`exit(1)`), not with the command's own code 2: the non-zero exit code is not
propagated verbatim. -/
theorem exit_code_not_propagated :
    (run_colmap_command (fun _ => .exit 2) 1).1 = .sysExit 1
      ∧ RunOutcome.sysExit 1 ≠ RunOutcome.sysExit 2 := by
  decide

/-- C1 counterexample: two batches; batch 0's feature-extraction command
fails (exit code 5) on both attempts, batch 1 would succeed and produce a
sparse folder.  The claim says batch 0 alone is skipped and batch 1 is
still processed; in fact `run_colmap_command`'s `exit(1)` (a SystemExit,
which `except Exception` does not catch) terminates the whole run: the
result is `exit(1)` and batch 2's "Processing batch 2/2..." log entry is
never written. -/
theorem batch_failure_aborts_run :
    (batch_process_images
      [⟨fun _ => .exit 5, fun _ => .exit 0, fun _ => .exit 0, true⟩,
       ⟨fun _ => .exit 0, fun _ => .exit 0, fun _ => .exit 0, true⟩]).1 = .sysExit 1
    ∧ LogEntry.processingBatch 2 2 ∉
        (batch_process_images
          [⟨fun _ => .exit 5, fun _ => .exit 0, fun _ => .exit 0, true⟩,
           ⟨fun _ => .exit 0, fun _ => .exit 0, fun _ => .exit 0, true⟩]).2 := by
  decide

/-- C1 amended: if any stage of a batch ultimately fails after its retries,
the whole process terminates with that `exit` status (the remaining batches
are never processed — the result does not depend on them); a batch is
skipped with processing continuing only when all its commands succeed but
no sparse reconstruction folder is produced. -/
theorem stage_failure_fatal_sparse_missing_skips :
    (∀ total k env rest s l, process_batch total k env = (.sysExit s, l) →
      (batch_loop total k (env :: rest)).1 = .sysExit s)
    ∧ (∀ total k env rest l, process_batch total k env = (.ok false, l) →
      (batch_loop total k (env :: rest)).1 = (batch_loop total (k + 1) rest).1) := by
  constructor
  · intro total k env rest s l h
    simp [batch_loop, h]
  · intro total k env rest l h
    rcases hr : batch_loop total (k + 1) rest with ⟨o, l2⟩
    cases o <;> simp [batch_loop, h, hr]

/-- Witness for the amended C1, at concrete batches: a failing first batch
aborts with status 1; a first batch with no sparse output is skipped and
the loop's outcome is that of the remaining batch alone. -/
theorem stage_failure_fatal_sparse_missing_skips_witness :
    (batch_loop 2 0
      [⟨fun _ => .exit 5, fun _ => .exit 0, fun _ => .exit 0, true⟩,
       ⟨fun _ => .exit 0, fun _ => .exit 0, fun _ => .exit 0, true⟩]).1 = .sysExit 1
    ∧ (batch_loop 2 0
        [⟨fun _ => .exit 0, fun _ => .exit 0, fun _ => .exit 0, false⟩,
         ⟨fun _ => .exit 0, fun _ => .exit 0, fun _ => .exit 0, true⟩]).1
      = (batch_loop 2 1 [⟨fun _ => .exit 0, fun _ => .exit 0, fun _ => .exit 0, true⟩]).1 :=
  ⟨stage_failure_fatal_sparse_missing_skips.1 2 0
      ⟨fun _ => .exit 5, fun _ => .exit 0, fun _ => .exit 0, true⟩
      [⟨fun _ => .exit 0, fun _ => .exit 0, fun _ => .exit 0, true⟩] 1
      [.processingBatch 1 2, .attemptFailed 1 5, .attemptFailed 2 5, .allAttemptsFailed]
      (by decide),
   stage_failure_fatal_sparse_missing_skips.2 2 0
      ⟨fun _ => .exit 0, fun _ => .exit 0, fun _ => .exit 0, false⟩
      [⟨fun _ => .exit 0, fun _ => .exit 0, fun _ => .exit 0, true⟩]
      [.processingBatch 1 2, .sparseNotFound 0]
      (by decide)⟩

theorem create_batch_folders_nil (B : Nat) (hB : 0 < B) :
    create_batch_folders [] B = [] := by
  have h0 : (B - 1) / B = 0 := Nat.div_eq_of_lt (by omega)
  simp [create_batch_folders, h0]

theorem create_batch_folders_eq_chunks (images : List String) (B : Nat) :
    create_batch_folders images B
      = (List.range ((images.length + B - 1) / B)).map
          (fun i => (images.drop (i * B)).take B) := by
  unfold create_batch_folders
  apply List.map_congr_left
  intro i _
  apply List.take_eq_take.mpr
  simp only [List.length_drop]
  rw [Nat.add_mul, one_mul]
  omega

theorem chunks_cons (B : Nat) (hB : 0 < B) (images : List String) (h : images ≠ []) :
    (List.range ((images.length + B - 1) / B)).map (fun i => (images.drop (i * B)).take B)
      = images.take B
        :: (List.range (((images.drop B).length + B - 1) / B)).map
            (fun i => ((images.drop B).drop (i * B)).take B) := by
  have hN : 1 ≤ images.length := List.length_pos.mpr h
  have hnum : (images.length + B - 1) / B = ((images.drop B).length + B - 1) / B + 1 := by
    rw [List.length_drop]
    rcases Nat.le_total B images.length with hle | hlt
    · have e1 : images.length + B - 1 = (images.length - 1) + B := by omega
      have e2 : images.length - B + B - 1 = images.length - 1 := by omega
      rw [e1, e2, Nat.add_div_right _ hB]
    · have e1 : images.length - B = 0 := by omega
      have e2 : (0 + B - 1) / B = 0 := Nat.div_eq_of_lt (by omega)
      have e3 : images.length + B - 1 = (images.length - 1) + B := by omega
      rw [e1, e2, e3, Nat.add_div_right _ hB,
        Nat.div_eq_of_lt (show images.length - 1 < B by omega)]
  rw [hnum, List.range_succ_eq_map, List.map_cons, List.map_map]
  refine congrArg₂ List.cons (by simp) ?_
  apply List.map_congr_left
  intro i _
  simp only [Function.comp_apply]
  rw [List.drop_drop]
  have e : Nat.succ i * B = B + i * B := by rw [Nat.succ_mul]; omega
  rw [e]

theorem chunks_flatten (B : Nat) (hB : 0 < B) :
    ∀ N (images : List String), images.length ≤ N →
      ((List.range ((images.length + B - 1) / B)).map
        (fun i => (images.drop (i * B)).take B)).flatten = images := by
  intro N
  induction N with
  | zero =>
    intro images hlen
    have : images = [] := List.eq_nil_of_length_eq_zero (by omega)
    subst this
    have h0 : (List.length ([] : List String) + B - 1) / B = 0 :=
      Nat.div_eq_of_lt (by simp only [List.length_nil]; omega)
    simp [h0]
  | succ n ih =>
    intro images hlen
    rcases eq_or_ne images [] with rfl | hne
    · have h0 : (List.length ([] : List String) + B - 1) / B = 0 :=
        Nat.div_eq_of_lt (by simp only [List.length_nil]; omega)
      simp [h0]
    · have hpos : 0 < images.length := List.length_pos.mpr hne
      rw [chunks_cons B hB images hne, List.flatten_cons,
        ih (images.drop B) (by rw [List.length_drop]; omega)]
      exact List.take_append_drop B images

/-- C4: for every ImageSet and positive batch size `B`, the partitioner
produces exactly `⌈N/B⌉ = (N + B - 1) / B` batches; batch `i` is precisely
the slice `images[i*B : min((i+1)*B, N)]`; concatenating the batches in
order gives back the ImageSet (collectively exhaustive, no overlap in
positions), the batch sizes sum to `N`, and — as the filenames of a
directory listing are pairwise distinct — the batches are pairwise
disjoint. -/
theorem create_batch_folders_partition (images : List String) (B : Nat) (hB : 0 < B) :
    (create_batch_folders images B).length = (images.length + B - 1) / B
    ∧ (∀ i, i < (images.length + B - 1) / B →
        (create_batch_folders images B)[i]?
          = some ((images.drop (i * B)).take (min ((i + 1) * B) images.length - i * B)))
    ∧ (create_batch_folders images B).flatten = images
    ∧ ((create_batch_folders images B).map List.length).sum = images.length
    ∧ (images.Nodup → (create_batch_folders images B).Pairwise List.Disjoint) := by
  have hflat : (create_batch_folders images B).flatten = images := by
    rw [create_batch_folders_eq_chunks images B]
    exact chunks_flatten B hB images.length images le_rfl
  refine ⟨?_, ?_, hflat, ?_, ?_⟩
  · simp [create_batch_folders]
  · intro i hi
    simp [create_batch_folders, List.getElem?_map, List.getElem?_range hi]
  · rw [← List.length_flatten, hflat]
  · intro hnd
    have hjn : (create_batch_folders images B).flatten.Nodup := by
      rw [hflat]; exact hnd
    exact (List.nodup_flatten.mp hjn).2

/-- Witness for C4 at a concrete ImageSet of 5 images and `B = 2`:
3 batches, the stated slices, flattening back to the ImageSet, sizes
summing to 5, and pairwise disjointness. -/
theorem create_batch_folders_partition_witness :
    (create_batch_folders ["a", "b", "c", "d", "e"] 2).length = (5 + 2 - 1) / 2
    ∧ (∀ i, i < (5 + 2 - 1) / 2 →
        (create_batch_folders ["a", "b", "c", "d", "e"] 2)[i]?
          = some (((["a", "b", "c", "d", "e"] : List String).drop (i * 2)).take
              (min ((i + 1) * 2) 5 - i * 2)))
    ∧ (create_batch_folders ["a", "b", "c", "d", "e"] 2).flatten = ["a", "b", "c", "d", "e"]
    ∧ ((create_batch_folders ["a", "b", "c", "d", "e"] 2).map List.length).sum = 5
    ∧ ((["a", "b", "c", "d", "e"] : List String).Nodup →
        (create_batch_folders ["a", "b", "c", "d", "e"] 2).Pairwise List.Disjoint) :=
  create_batch_folders_partition ["a", "b", "c", "d", "e"] 2 (by decide)

theorem merge_fold_cons_none {DB : Type} (mr : DB → DB → DB)
    (beh : DB → DB → CmdBehavior) (acc : DB) (i : Nat) (rest : List (Option DB)) :
    merge_fold mr beh acc i (none :: rest)
      = ((merge_fold mr beh acc (i + 1) rest).1,
         .skippingMissingDb i :: (merge_fold mr beh acc (i + 1) rest).2) := by
  rcases hm : merge_fold mr beh acc (i + 1) rest with ⟨o, l⟩
  simp [merge_fold, hm]

theorem merge_fold_all_ok {DB : Type} (mr : DB → DB → DB)
    (beh : DB → DB → CmdBehavior)
    (hok : ∀ a d, (run_colmap_command (beh a d) 1).1 = .ok) :
    ∀ (rest : List (Option DB)) (acc : DB) (i : Nat),
      (merge_fold mr beh acc i rest).1
        = .ok ((rest.filterMap id).foldl mr acc) := by
  intro rest
  induction rest with
  | nil => intro acc i; simp [merge_fold]
  | cons od rest ih =>
    intro acc i
    cases od with
    | none =>
      rw [merge_fold_cons_none]
      simpa using ih acc (i + 1)
    | some d =>
      have hd := hok acc d
      rcases hr : run_colmap_command (beh acc d) 1 with ⟨o, l, n⟩
      rw [hr] at hd
      simp only at hd
      subst hd
      simpa [merge_fold, hr] using ih (mr acc d) (i + 1)

theorem merge_databases_fold_outcome {DB : Type} (mr : DB → DB → DB)
    (beh : DB → DB → CmdBehavior) (rm : Nat → Bool) (d0 : DB)
    (rest : List (Option DB)) :
    (merge_databases mr beh rm (some d0 :: rest)).1
      = (merge_fold mr beh d0 1 rest).1 := by
  rcases hm : merge_fold mr beh d0 1 rest with ⟨o, l⟩
  cases o <;> simp [merge_databases, hm]

theorem merge_fold_outcome_index {DB : Type} (mr : DB → DB → DB)
    (beh : DB → DB → CmdBehavior) :
    ∀ (rest : List (Option DB)) (acc : DB) (i j : Nat),
      (merge_fold mr beh acc i rest).1 = (merge_fold mr beh acc j rest).1 := by
  intro rest
  induction rest with
  | nil => intro acc i j; rfl
  | cons od rest ih =>
    intro acc i j
    cases od with
    | none =>
      rw [merge_fold_cons_none, merge_fold_cons_none]
      exact ih acc (i + 1) (j + 1)
    | some d =>
      rcases hr : run_colmap_command (beh acc d) 1 with ⟨o, l, n⟩
      cases o with
      | ok => simpa [merge_fold, hr] using ih (mr acc d) (i + 1) (j + 1)
      | sysExit s => simp [merge_fold, hr]

theorem merge_fold_skip_insert {DB : Type} (mr : DB → DB → DB)
    (beh : DB → DB → CmdBehavior) (post : List (Option DB)) :
    ∀ (pre : List (Option DB)) (acc : DB) (i : Nat),
      (merge_fold mr beh acc i (pre ++ none :: post)).1
        = (merge_fold mr beh acc i (pre ++ post)).1 := by
  intro pre
  induction pre with
  | nil =>
    intro acc i
    simp only [List.nil_append]
    rw [merge_fold_cons_none]
    simpa using merge_fold_outcome_index mr beh post acc (i + 1) i
  | cons od pre ih =>
    intro acc i
    cases od with
    | none =>
      simp only [List.cons_append]
      rw [merge_fold_cons_none, merge_fold_cons_none]
      simpa using ih acc (i + 1)
    | some d =>
      simp only [List.cons_append]
      rcases hr : run_colmap_command (beh acc d) 1 with ⟨o, l, n⟩
      cases o with
      | ok => simpa [merge_fold, hr] using ih (mr acc d) (i + 1)
      | sysExit s => simp [merge_fold, hr]

/-- C5: when the external merge commands succeed, `merge_databases` is a
strict left fold in increasing batch-index order: the accumulator starts as
an exact copy of batch 0's database and is repeatedly replaced by the
pairwise merge of (accumulator, batch i's database), batch by batch, over
the present databases — no other order, and no tree shape. -/
theorem merge_is_left_fold {DB : Type} (mergedResult : DB → DB → DB)
    (mergeCmdBeh : DB → DB → CmdBehavior) (rmOk : Nat → Bool)
    (d0 : DB) (rest : List (Option DB))
    (hok : ∀ a d, (run_colmap_command (mergeCmdBeh a d) 1).1 = .ok) :
    (merge_databases mergedResult mergeCmdBeh rmOk (some d0 :: rest)).1
      = .ok ((rest.filterMap id).foldl mergedResult d0) := by
  rw [merge_databases_fold_outcome]
  exact merge_fold_all_ok mergedResult mergeCmdBeh hok rest d0 1

/-- Witness for C5, with a non-commutative, non-associative merge operation
(`10 * a + b`), so that the value `123` certifies the left-fold order
`(1 ⊕ 2) ⊕ 3` over present databases, past the missing one. -/
theorem merge_is_left_fold_witness :
    (@merge_databases Nat (fun a b => 10 * a + b) (fun _ _ _ => .exit 0)
      (fun _ => true) [some 1, some 2, none, some 3]).1 = .ok 123 :=
  merge_is_left_fold (fun a b => 10 * a + b) (fun _ _ _ => .exit 0)
    (fun _ => true) 1 [some 2, none, some 3] (fun _ _ => rfl)

/-- C6: a missing batch database at merge step `i` is a true no-op on the
data.  First conjunct: processing the missing entry leaves the accumulator
(and hence the rest of the fold) exactly as it was — the only effect is the
one skip log entry.  Second conjunct: the final outcome of
`merge_databases` on a batch list with a missing database inserted anywhere
after batch 0 equals the outcome without it. -/
theorem merge_skip_missing_noop :
    (∀ (DB : Type) (mr : DB → DB → DB) (beh : DB → DB → CmdBehavior) (acc : DB)
        (i : Nat) (rest : List (Option DB)),
      merge_fold mr beh acc i (none :: rest)
        = ((merge_fold mr beh acc (i + 1) rest).1,
           .skippingMissingDb i :: (merge_fold mr beh acc (i + 1) rest).2))
    ∧ (∀ (DB : Type) (mr : DB → DB → DB) (beh : DB → DB → CmdBehavior)
        (rm : Nat → Bool) (d0 : DB) (pre post : List (Option DB)),
      (merge_databases mr beh rm (some d0 :: (pre ++ none :: post))).1
        = (merge_databases mr beh rm (some d0 :: (pre ++ post))).1) := by
  constructor
  · intro DB mr beh acc i rest
    exact merge_fold_cons_none mr beh acc i rest
  · intro DB mr beh rm d0 pre post
    rw [merge_databases_fold_outcome, merge_databases_fold_outcome]
    exact merge_fold_skip_insert mr beh post pre d0 1

/-- C7: when no batch produced a usable reconstruction the run fails
fatally with the explicit "No valid sparse folders found for merging"
condition and exit status 1 — not an unhandled exception.  In particular:
an empty ImageSet yields zero batches (first conjunct), zero batches yield
the explicit fatal exit (second conjunct), any loop run collecting no
sparse folder ends the same way (third conjunct), the outcome is never a
raised exception (fourth conjunct), and the end-to-end script on an empty
input listing exits with status 1 (fifth conjunct). -/
theorem no_usable_databases_fatal :
    (∀ B, 0 < B → create_batch_folders [] B = [])
    ∧ batch_process_images [] = (.sysExit 1, [.noValidSparse])
    ∧ (∀ envs l, batch_loop envs.length 0 envs = (.ok [], l) →
        batch_process_images envs = (.sysExit 1, l ++ [.noValidSparse]))
    ∧ (∀ e, (batch_process_images []).1 ≠ .raised e)
    ∧ (∀ (cfg : RunConfig) (w : World Nat), cfg.skip_matching = false →
        w.listing = [] → 0 < cfg.batch_size → (mainScript cfg w).1 = .sysExit 1) := by
  refine ⟨?_, by decide, ?_, ?_, ?_⟩
  · intro B hB
    exact create_batch_folders_nil B hB
  · intro envs l h
    simp [batch_process_images, h]
  · intro e h
    have hx : (batch_process_images ([] : List BatchEnv)).1 = .sysExit 1 := by decide
    rw [hx] at h
    exact PyOutcome.noConfusion h
  · intro cfg w h1 h2 h3
    simp [mainScript, h1, h2, imageListing, create_batch_folders_nil cfg.batch_size h3,
      batch_process_images, batch_loop]

/-- Witness for C7: zero images → zero batches; a single batch with no
sparse output → explicit fatal exit with the "no valid sparse folders" log;
the end-to-end script on an empty listing exits with status 1. -/
theorem no_usable_databases_fatal_witness :
    create_batch_folders [] 3 = []
    ∧ batch_process_images [⟨fun _ => .exit 0, fun _ => .exit 0, fun _ => .exit 0, false⟩]
        = (.sysExit 1, [.processingBatch 1 1, .sparseNotFound 0] ++ [.noValidSparse])
    ∧ (mainScript ⟨false, false, "s", "input", 2⟩
        { benignWorld with listing := [] }).1 = .sysExit 1 :=
  ⟨no_usable_databases_fatal.1 3 (by decide),
   no_usable_databases_fatal.2.2.1
     [⟨fun _ => .exit 0, fun _ => .exit 0, fun _ => .exit 0, false⟩]
     [.processingBatch 1 1, .sparseNotFound 0] (by decide),
   no_usable_databases_fatal.2.2.2.2 ⟨false, false, "s", "input", 2⟩
     { benignWorld with listing := [] } rfl rfl (by decide)⟩

/-- C8 counterexample: a run whose single batch reconstructs fine but whose
`database.db` is missing at merge time (e.g. deleted or never written by
the external tool).  `merge_databases` raises `FileNotFoundError`
(line 121) with no handler anywhere in the script — an uncaught exception
escaping to a top-level crash, not a normalized fatal exit or skip — and
the only log entry written by `merge_databases` before the raise is the
line-115 banner, so this failure path writes no failure log entry at all.
(The `--skip_matching` NameError of C9 is a second such escape.) -/
theorem merge_missing_first_db_uncaught :
    (mainScript ⟨false, false, "s", "input", 1⟩
      { benignWorld with listing := ["a.jpg"], dbAfter := fun _ => none }).1
        = .raised .fileNotFound
    ∧ @merge_databases Nat (fun a b => a + b) (fun _ _ _ => .exit 0)
        (fun _ => true) [none]
        = (.raised .fileNotFound, [.mergingStart]) := by
  decide

theorem runAttempts_normalized (beh : CmdBehavior) :
    ∀ remaining attempt,
      (runAttempts beh attempt remaining).1 = .ok
      ∨ ((runAttempts beh attempt remaining).1 = .sysExit 1
          ∧ .allAttemptsFailed ∈ (runAttempts beh attempt remaining).2.1) := by
  intro remaining
  induction remaining with
  | zero => intro attempt; right; exact ⟨rfl, by simp [runAttempts]⟩
  | succ n ih =>
    intro attempt
    rcases hb : beh attempt with c | _
    · cases c with
      | zero => left; simp [runAttempts, hb]
      | succ c =>
        rcases ih (attempt + 1) with h | ⟨h1, h2⟩
        · left; simpa [runAttempts, hb] using h
        · right
          refine ⟨by simpa [runAttempts, hb] using h1, ?_⟩
          simp only [runAttempts, hb]
          exact List.mem_cons_of_mem _ h2
    · rcases ih (attempt + 1) with h | ⟨h1, h2⟩
      · left; simpa [runAttempts, hb] using h
      · right
        refine ⟨by simpa [runAttempts, hb] using h1, ?_⟩
        simp only [runAttempts, hb]
        exact List.mem_cons_of_mem _ h2

/-- C8 amended: every *external-command* failure is normalized and logged:
`run_colmap_command` either returns or exits with status 1 after logging
the "all attempts failed" entry; the per-batch driver never lets an
exception escape (its outcome is a return or a `SystemExit`, never a
raised exception); a resize failure writes its error log entry before
exiting.  (What the original claim gets wrong, per the counterexample: the
missing-first-database check of `merge_databases` raises an uncaught
`FileNotFoundError` without a failure log entry, and the `--skip_matching`
path raises an uncaught `NameError` — two failure paths that do escape as
top-level crashes.) -/
theorem command_failures_normalized :
    (∀ (beh : CmdBehavior) (retries : Nat),
      (run_colmap_command beh retries).1 = .ok
      ∨ ((run_colmap_command beh retries).1 = .sysExit 1
          ∧ .allAttemptsFailed ∈ (run_colmap_command beh retries).2.1))
    ∧ (∀ total k env e, (process_batch total k env).1 ≠ .raised e)
    ∧ (∀ (mog : String → Nat) (files : List String) (c : Nat),
        (resize_scale mog files).1 = .sysExit c →
        ∃ f, .resizeFailed f c ∈ (resize_scale mog files).2) := by
  refine ⟨?_, ?_, ?_⟩
  · intro beh retries
    exact runAttempts_normalized beh (retries + 1) 0
  · intro total k env e
    rcases h1 : run_colmap_command env.featBeh 1 with ⟨o1, l1, n1⟩
    cases o1 with
    | sysExit s => simp [process_batch, h1]
    | ok =>
      rcases h2 : run_colmap_command env.matchBeh 1 with ⟨o2, l2, n2⟩
      cases o2 with
      | sysExit s => simp [process_batch, h1, h2]
      | ok =>
        rcases h3 : run_colmap_command env.mapBeh 1 with ⟨o3, l3, n3⟩
        cases o3 with
        | sysExit s => simp [process_batch, h1, h2, h3]
        | ok =>
          cases hs : env.sparseExists <;> simp [process_batch, h1, h2, h3, hs]
  · intro mog files c
    induction files with
    | nil => intro h; simp [resize_scale] at h
    | cons f rest ih =>
      intro h
      by_cases hf : isJpgOrPng f = true
      · by_cases hc : mog f = 0
        · have hm : (resize_scale mog (f :: rest)).1 = (resize_scale mog rest).1 := by
            simp [resize_scale, hf, hc]
          rw [hm] at h
          obtain ⟨g, hg⟩ := ih h
          refine ⟨g, ?_⟩
          have hl : (resize_scale mog (f :: rest)).2
              = .processingImage f :: (resize_scale mog rest).2 := by
            simp [resize_scale, hf, hc]
          rw [hl]
          exact List.mem_cons_of_mem _ hg
        · have hm : (resize_scale mog (f :: rest)).1 = .sysExit (mog f) := by
            simp [resize_scale, hf, hc]
          rw [hm] at h
          have hmc : mog f = c := by
            simpa using h
          refine ⟨f, ?_⟩
          rw [hmc] at hc
          simp [resize_scale, hf, hmc, hc]
      · have hb : isJpgOrPng f = false := by
          simpa using hf
        have hm : resize_scale mog (f :: rest) = resize_scale mog rest := by
          simp [resize_scale, hb]
        rw [hm] at h ⊢
        exact ih h

/-- Witness for the amended C8: a command with no retries fails once and
exits after logging; the per-batch driver on a benign batch raises nothing;
a mogrify failure with code 4 has its error entry in the log. -/
theorem command_failures_normalized_witness :
    ((run_colmap_command (fun _ => .timeout) 0).1 = .ok
      ∨ ((run_colmap_command (fun _ => .timeout) 0).1 = .sysExit 1
          ∧ .allAttemptsFailed ∈ (run_colmap_command (fun _ => .timeout) 0).2.1))
    ∧ (process_batch 1 0 benignEnv).1 ≠ .raised .indexError
    ∧ (∃ f, .resizeFailed f 4 ∈ (resize_scale (fun _ => 4) ["a.jpg"]).2) :=
  ⟨command_failures_normalized.1 (fun _ => .timeout) 0,
   command_failures_normalized.2.1 1 0 benignEnv .indexError,
   command_failures_normalized.2.2 (fun _ => 4) ["a.jpg"] 4 (by decide)⟩

/-- C3 amended: every fatal failure raised through `run_colmap_command`
(all colmap stages, merges, undistortion) exits with status 1 regardless of
the external command's own exit code (line 47 is `exit(1)`); only a resize
failure propagates the external command's non-zero code verbatim
(line 181, `exit(result.returncode)`); on full success the script runs to
completion, i.e. exit status 0 (shown for a concrete full-success run). -/
theorem fatal_exit_codes :
    (∀ (beh : CmdBehavior) (retries s : Nat),
      (run_colmap_command beh retries).1 = .sysExit s → s = 1)
    ∧ (∀ (mog : String → Nat) (file : String) (rest : List String) (c : Nat),
        isJpgOrPng file = true → mog file = c → c ≠ 0 →
        (resize_scale mog (file :: rest)).1 = .sysExit c)
    ∧ (mainScript benignCfg benignWorld).1 = .ok () := by
  refine ⟨?_, ?_, by decide⟩
  · intro beh retries s h
    have hrc : run_colmap_command beh retries = runAttempts beh 0 (retries + 1) := rfl
    rw [hrc] at h
    rcases runAttempts_normalized beh (retries + 1) 0 with hok | ⟨h1, _⟩
    · rw [hok] at h
      exact RunOutcome.noConfusion h
    · rw [h1] at h
      have := RunOutcome.sysExit.inj h
      omega
  · intro mog file rest c hf hm hc
    subst hm
    simp [resize_scale, hf, hc]

/-- Witness for the amended C3: a command failing with code 7 still makes
the process exit 1 (first conjunct instantiates to `1 = 1`); a mogrify
failure with code 3 exits with code 3. -/
theorem fatal_exit_codes_witness :
    (1 : Nat) = 1
    ∧ (resize_scale (fun _ => 3) ["a.jpg"]).1 = .sysExit 3 :=
  ⟨fatal_exit_codes.1 (fun _ => .exit 7) 1 1 (by decide),
   fatal_exit_codes.2.1 (fun _ => 3) "a.jpg" [] 3 (by decide) rfl (by decide)⟩

/-- C9: when `--skip_matching` is given, the `if not args.skip_matching`
branch (lines 147-154) is skipped, so `input_folder_path` (assigned only at
line 149) is unbound; building the undistortion command's f-string at
line 159 then raises `NameError` — an uncaught exception, whatever the rest
of the world does.  The `--skip_matching` option can therefore never
complete successfully. -/
theorem skip_matching_name_error {DB : Type} (cfg : RunConfig) (w : World DB)
    (h : cfg.skip_matching = true) :
    (mainScript cfg w).1 = .raised (.nameError "input_folder_path") := by
  simp [mainScript, h]

/-- Witness for C9 at a concrete configuration and world. -/
theorem skip_matching_name_error_witness :
    (mainScript ⟨true, true, "s", "input", 100⟩ benignWorld).1
      = .raised (.nameError "input_folder_path") :=
  skip_matching_name_error ⟨true, true, "s", "input", 100⟩ benignWorld rfl

theorem resize_scale_skip_cons (mog : String → Nat) (f : String) (files : List String)
    (hf : isJpgOrPng f = false) :
    resize_scale mog (f :: files) = resize_scale mog files := by
  simp [resize_scale, hf]

theorem resize_pass_skip_cons (mog : String → String → Nat) (f : String)
    (files : List String) (hf : isJpgOrPng f = false) :
    ∀ scs, resize_pass mog (f :: files) scs = resize_pass mog files scs := by
  intro scs
  induction scs with
  | nil => rfl
  | cons sc rest ih =>
    rcases sc with ⟨sc1, factor⟩
    simp only [resize_pass]
    rw [resize_scale_skip_cons (mog factor) f files hf, ih]

/-- C10: the ImageSet is exactly the directory entries whose lowercased
name ends in ".jpg" or ".png" (first conjunct); ".jpeg" and ".tif" files
are excluded while case variation is accepted (next conjuncts); the resize
pass processes exactly the same filtered set (log characterization); and a
file of any other extension is silently ignored by the whole script — the
entire run, partitioning and resize included, is unchanged by its presence
in the input directory (last conjunct). -/
theorem image_filter_exact :
    (∀ (files : List String) (f : String),
      f ∈ imageListing files ↔ f ∈ files ∧ isJpgOrPng f = true)
    ∧ isJpgOrPng "photo.jpeg" = false
    ∧ isJpgOrPng "scan.tif" = false
    ∧ isJpgOrPng "Photo.JPG" = true
    ∧ (∀ (mog : String → Nat) (files : List String),
        (∀ f, mog f = 0) →
        (resize_scale mog files).2
          = (files.filter isJpgOrPng).map LogEntry.processingImage)
    ∧ (∀ (DB : Type) (cfg : RunConfig) (w : World DB) (f : String),
        isJpgOrPng f = false →
        mainScript cfg { w with listing := f :: w.listing } = mainScript cfg w) := by
  refine ⟨?_, by decide, by decide, by decide, ?_, ?_⟩
  · intro files f
    simp [imageListing, List.mem_filter]
  · intro mog files hmog
    induction files with
    | nil => simp [resize_scale]
    | cons f rest ih =>
      by_cases hf : isJpgOrPng f = true
      · simp [resize_scale, hf, hmog f, ih]
      · have hb : isJpgOrPng f = false := by simpa using hf
        simp [resize_scale, hb, ih]
  · intro DB cfg w f hf
    have h1 : imageListing (f :: w.listing) = imageListing w.listing := by
      simp [imageListing, List.filter_cons_of_neg, hf]
    have h2 : resize_pass w.mogrify (f :: w.listing) scales
        = resize_pass w.mogrify w.listing scales :=
      resize_pass_skip_cons w.mogrify f w.listing hf scales
    simp only [mainScript, h1, h2]

/-- Witness for C10: the filter characterization at "a.jpg"; the resize
pass touching exactly the matching files; and a ".tif" file added to the
input directory leaving the whole run unchanged. -/
theorem image_filter_exact_witness :
    ("a.jpg" ∈ imageListing ["a.jpg"] ↔ "a.jpg" ∈ ["a.jpg"] ∧ isJpgOrPng "a.jpg" = true)
    ∧ (resize_scale (fun _ => 0) ["a.jpg", "c.txt"]).2
        = ((["a.jpg", "c.txt"] : List String).filter isJpgOrPng).map LogEntry.processingImage
    ∧ mainScript benignCfg { benignWorld with listing := "x.tif" :: benignWorld.listing }
        = mainScript benignCfg benignWorld :=
  ⟨image_filter_exact.1 ["a.jpg"] "a.jpg",
   image_filter_exact.2.2.2.2.1 (fun _ => 0) ["a.jpg", "c.txt"] (fun _ => rfl),
   image_filter_exact.2.2.2.2.2 Nat benignCfg benignWorld "x.tif" (by decide)⟩
